import Mathlib

/-!
Verification development for the DingTalk channel's connection supervision
core (`openclaw-channel-dingtalk`).

The repository ships the gateway glue (`src/send-service.ts`), the
configuration schema (`src/config-schema.ts`), the shared types
(`src/types.ts`) and the vitest suite of the `ConnectionManager`, but the
file `src/connection-manager.ts` itself is not part of the sources
available here.  The manager is therefore modelled from the specification
(definitions below marked `Modelled from the spec:`), as a deterministic
virtual-time simulation: client connect attempts settle instantly, backoff
waits and liveness-monitor ticks advance a virtual millisecond clock, and
the simulation advances time by the deterministic (`jitter = 0`) backoff
delay, which is the regime every timing-sensitive test of the suite runs
in.  Definitions taken from files that are present cite their source file.
-/

namespace DingTalk

/-- Connection lifecycle states (`ConnectionState` enum in
`src/src/types.ts`). -/
inductive ConnectionState where
  | DISCONNECTED
  | CONNECTING
  | CONNECTED
  | DISCONNECTING
  | FAILED
deriving DecidableEq, Repr

/-- Connection manager configuration (`ConnectionManagerConfig` in
`src/src/types.ts`, together with the optional `maxReconnectCycles` field
the gateway passes in `src/src/send-service.ts`).  Delays are virtual
milliseconds; `jitter` is the fractional jitter factor. -/
structure ConnectionManagerConfig where
  maxAttempts : Nat
  initialDelay : Nat
  maxDelay : Nat
  jitter : ℚ
  maxReconnectCycles : Option Nat

/-- Modelled from the spec: §4.1 Backoff Calculator base delay,
`min(maxDelay, initialDelay * 2^(n-1))` for the 1-indexed attempt `n`. -/
def baseDelay (cfg : ConnectionManagerConfig) (n : Nat) : Nat :=
  min cfg.maxDelay (cfg.initialDelay * 2 ^ (n - 1))

/-- Modelled from the spec: §4.1 Backoff Calculator.  `rand` is the uniform
sample drawn from `[0, 1]`; the final delay scales the base delay by a
factor in `[1 - jitter, 1 + jitter]` and clamps the lower bound to `0`. -/
def calculateBackoff (cfg : ConnectionManagerConfig) (n : Nat) (rand : ℚ) : ℚ :=
  max 0 ((baseDelay cfg n : ℚ) * (1 - cfg.jitter + 2 * cfg.jitter * rand))

/-- Scripted behaviour of the external push client (spec §6): whether the
`k`-th call (1-indexed, counted across the whole run) to the client's
`connect` resolves, the `connected` flag the client reports at each virtual
time, and whether its `disconnect` throws. -/
structure ClientScript where
  connectOk : Nat → Bool
  connectedAt : Nat → Bool
  disconnectThrows : Bool

/-- The client's `disconnect` capability (spec §6): it may throw. -/
def clientDisconnect (script : ClientScript) : Except String Unit :=
  if script.disconnectThrows then Except.error "disconnect failed" else Except.ok ()

deriving instance DecidableEq for Except

/-- Observable state of one `ConnectionManager` simulation: the virtual
clock, the lifecycle state, the stop flag, the liveness-monitor bookkeeping
(`lastConnectedAt`, `monitorOn`, `monitorStart`), the consumed
runtime-reconnect cycles, the timestamps of all client `connect` calls, the
count of client `disconnect` calls, the `onStateChange` invocation list,
the `waitForStop` waiter counters, and the settlement of the in-flight
`connect()` promise. -/
structure Sim where
  now : Nat
  state : ConnectionState
  stopped : Bool
  lastConnectedAt : Nat
  monitorOn : Bool
  monitorStart : Nat
  cyclesUsed : Nat
  connectCallTimes : List Nat
  disconnectCalls : Nat
  changes : List (ConnectionState × Option String)
  waitersPending : Nat
  waitersResolved : Nat
  connectResult : Option (Except String Unit)
deriving DecidableEq, Repr

/-- A freshly constructed manager: `DISCONNECTED`, not stopped, no calls
recorded (spec §3). -/
def initSim : Sim :=
  ⟨0, ConnectionState.DISCONNECTED, false, 0, false, 0, 0, [], 0, [], 0, 0, none⟩

/-- Rejection message of `connect()` after `stop()` (vitest suite of the
connection manager). -/
def stoppedMsg : String := "Cannot connect: connection manager is stopped"

/-- Rejection message of a `connect()` cancelled by `stop()` (vitest suite
of the connection manager). -/
def cancelledMsg : String := "Connection cancelled: connection manager stopped"

/-- Rejection message after exhausting the initial attempt budget (vitest
suite of the connection manager). -/
def failedMsg (n : Nat) : String := s!"Failed to connect after {n} attempts"

/-- `onStateChange` message after exhausting the runtime reconnect cycle
budget (spec §4.4 and the vitest suite). -/
def cyclesMsg (k : Nat) : String := s!"Max runtime reconnect cycles ({k}) reached"

/-- Modelled from the spec: §4.2 steps 1-2 — best-effort pre-attempt
cleanup (a client `disconnect` whose error is caught and only logged)
followed by issuing the client `connect` call, recorded with its virtual
timestamp. -/
def connectBegin (script : ClientScript) (s : Sim) : Sim :=
  let s1 :=
    match clientDisconnect script with
    | Except.ok _ => { s with disconnectCalls := s.disconnectCalls + 1 }
    | Except.error _ => { s with disconnectCalls := s.disconnectCalls + 1 }
  { s1 with connectCallTimes := s1.connectCallTimes ++ [s1.now] }

/-- Modelled from the spec: §4.2 steps 3-5 — settling one connect attempt.
If `stop()` arrived while the attempt was outstanding, the in-flight
`connect()` rejects with the distinct cancellation error no matter how the
client call settled.  Otherwise success transitions to `CONNECTED`, records
the connection timestamp and starts the liveness monitor; failure either
retries after the (deterministic) backoff delay via `retry`, or, with no
attempts left, transitions to `FAILED` and rejects naming the attempt
count. -/
def connectSettle (cfg : ConnectionManagerConfig) (attempt : Nat) (ok : Bool)
    (retry : Sim → Sim) (s : Sim) : Sim :=
  if s.stopped then
    { s with connectResult := some (Except.error cancelledMsg) }
  else if ok then
    { s with
        state := ConnectionState.CONNECTED
        changes := s.changes ++ [(ConnectionState.CONNECTED, none)]
        lastConnectedAt := s.now
        monitorOn := true
        monitorStart := s.now
        connectResult := some (Except.ok ()) }
  else if attempt < cfg.maxAttempts then
    retry { s with now := s.now + baseDelay cfg attempt }
  else
    { s with
        state := ConnectionState.FAILED
        changes := s.changes ++ [(ConnectionState.FAILED, none)]
        connectResult := some (Except.error (failedMsg cfg.maxAttempts)) }

/-- Modelled from the spec: §4.2 attempt loop for attempts `attempt`,
`attempt + 1`, … up to `maxAttempts`.  The loop re-checks the stop flag
when it regains control (the backoff wait is cancellable, §4.4 of the
design notes), so a `stop()` issued during the wait is observed as the
cancellation rejection.  `fuel` bounds the recursion; `connect` supplies
`maxAttempts`, which is exactly enough. -/
def connectSteps (cfg : ConnectionManagerConfig) (script : ClientScript) :
    Nat → Nat → Sim → Sim
  | 0, _, s => s
  | fuel + 1, attempt, s =>
    if s.stopped then { s with connectResult := some (Except.error cancelledMsg) }
    else
      let s1 := connectBegin script s
      connectSettle cfg attempt (script.connectOk s1.connectCallTimes.length)
        (connectSteps cfg script fuel (attempt + 1)) s1

/-- Modelled from the spec: §4.2 `connect()` — fails fast with the
"manager is stopped" error when the stop flag is set, otherwise
transitions to `CONNECTING` (invoking `onStateChange`) and runs the
attempt loop from attempt 1. -/
def connect (cfg : ConnectionManagerConfig) (script : ClientScript) (s : Sim) : Sim :=
  if s.stopped then { s with connectResult := some (Except.error stoppedMsg) }
  else
    connectSteps cfg script cfg.maxAttempts 1
      { s with
          state := ConnectionState.CONNECTING
          changes := s.changes ++ [(ConnectionState.CONNECTING, none)] }

/-- Modelled from the spec: §4.2 `isStopped()`. -/
def isStopped (s : Sim) : Bool := s.stopped

/-- Modelled from the spec: §4.2 `getState()`. -/
def getState (s : Sim) : ConnectionState := s.state

/-- Modelled from the spec: §4.5 `stop()` — idempotent: a second call is a
no-op.  The first call sets the stop flag, cancels the liveness monitor,
best-effort disconnects the client (a throwing `disconnect` is swallowed,
never propagated), transitions to `DISCONNECTED` and resolves every
pending `waitForStop()` caller exactly once. -/
def stop (script : ClientScript) (s : Sim) : Sim :=
  if s.stopped then s
  else
    let s1 := { s with stopped := true, monitorOn := false }
    let s2 :=
      match clientDisconnect script with
      | Except.ok _ => { s1 with disconnectCalls := s1.disconnectCalls + 1 }
      | Except.error _ => { s1 with disconnectCalls := s1.disconnectCalls + 1 }
    { s2 with
        state := ConnectionState.DISCONNECTED
        changes := s2.changes ++ [(ConnectionState.DISCONNECTED, none)]
        waitersResolved := s2.waitersResolved + s2.waitersPending
        waitersPending := 0 }

/-- Modelled from the spec: §4.5 `waitForStop()` — resolves immediately
(`true`) when the manager is already stopped, otherwise registers a
pending waiter that `stop` will resolve. -/
def waitForStop (s : Sim) : Sim × Bool :=
  if s.stopped then (s, true)
  else ({ s with waitersPending := s.waitersPending + 1 }, false)

/-- Registers `n` successive `waitForStop()` callers on a manager that has
not stopped yet. -/
def registerWaiters : Nat → Sim → Sim
  | 0, s => s
  | n + 1, s => registerWaiters n (waitForStop s).1

/-- Period of the liveness monitor's periodic connectivity check, in
virtual milliseconds (the vitest suite observes ticks on a 5000 ms
cadence). -/
def healthCheckIntervalMs : Nat := 5000

/-- Modelled from the spec: §4.4 — whether the runtime-reconnect cycle
budget is exhausted.  An absent `maxReconnectCycles` means the budget is
never exhausted. -/
def budgetExhausted (cfg : ConnectionManagerConfig) (s : Sim) : Bool :=
  match cfg.maxReconnectCycles with
  | some k => decide (k ≤ s.cyclesUsed)
  | none => false

/-- Modelled from the spec: §4.4 — exhausting the cycle budget transitions
to `FAILED`, invokes `onStateChange(FAILED, "Max runtime reconnect cycles
(<N>) reached")` and stops the monitor.  (Unreachable when the budget is
absent.) -/
def cycleExhaust (cfg : ConnectionManagerConfig) (s : Sim) : Sim :=
  match cfg.maxReconnectCycles with
  | some k =>
    { s with
        state := ConnectionState.FAILED
        monitorOn := false
        changes := s.changes ++ [(ConnectionState.FAILED, some (cyclesMsg k))] }
  | none => s

/-- Outcome of one runtime reconnect cycle: monitoring resumed after a
successful reconnect (with the index of the next pending monitor tick), or
the cycle's connect attempt failed. -/
inductive CycleOutcome where
  | resumed (tickIdx : Nat) (s : Sim)
  | failedCycle (s : Sim)

/-- Modelled from the spec: §4.4 — one runtime reconnect cycle: increment
the cycle counter, wait the backoff delay for this cycle number (numbering
restarts from 1 for the runtime phase), run the pre-attempt cleanup and
the client connect call.  Success resets the last-connected timestamp and
resumes monitoring at the next pending tick; failure reports the failed
cycle. -/
def runtimeCycle (cfg : ConnectionManagerConfig) (script : ClientScript) (s : Sim) :
    CycleOutcome :=
  let n := s.cyclesUsed + 1
  let t1 := s.now + baseDelay cfg n
  let s1 := connectBegin script { s with cyclesUsed := n, now := t1 }
  if script.connectOk s1.connectCallTimes.length then
    CycleOutcome.resumed ((t1 - s1.monitorStart) / healthCheckIntervalMs + 1)
      { s1 with lastConnectedAt := t1 }
  else
    CycleOutcome.failedCycle s1

mutual

/-- Modelled from the spec: §4.3 periodic liveness check.  While the
monitor runs, tick `tickIdx` fires at `monitorStart + tickIdx * interval`;
a tick where the client reports itself connected, or where the time since
the last successful connection is still within the grace window, is
benign.  Otherwise the tick detects a drop and hands off to the runtime
reconnect procedure.  `fuel` bounds the number of processed events. -/
def monitorLoop (cfg : ConnectionManagerConfig) (script : ClientScript) (grace : Nat) :
    Nat → Nat → Sim → Sim
  | 0, _, s => s
  | fuel + 1, tickIdx, s =>
    if s.monitorOn then
      let tt := s.monitorStart + tickIdx * healthCheckIntervalMs
      if script.connectedAt tt || decide (tt - s.lastConnectedAt ≤ grace) then
        monitorLoop cfg script grace fuel (tickIdx + 1) { s with now := tt }
      else
        runtimeLoop cfg script grace fuel { s with now := tt }
    else s

/-- Modelled from the spec: §4.4 runtime reconnect procedure.  Each entry
first checks the cycle budget: if it is exhausted the manager fails
(`cycleExhaust`); otherwise one reconnect cycle runs, after which a
successful cycle resumes the periodic monitoring and a failed cycle
re-enters this procedure.  `fuel` bounds the number of processed
events. -/
def runtimeLoop (cfg : ConnectionManagerConfig) (script : ClientScript) (grace : Nat) :
    Nat → Sim → Sim
  | 0, s => s
  | fuel + 1, s =>
    if budgetExhausted cfg s then cycleExhaust cfg s
    else
      match runtimeCycle cfg script s with
      | CycleOutcome.resumed tickIdx s1 => monitorLoop cfg script grace fuel tickIdx s1
      | CycleOutcome.failedCycle s1 => runtimeLoop cfg script grace fuel s1

end

/-- Modelled from the spec: §2 control flow — the gateway constructs the
manager and calls `connect()`; when that succeeds the liveness monitor
runs from the connection timestamp onwards (its first pending tick is tick
1).  `grace` is the liveness grace window and `fuel` bounds the number of
monitor/reconnect events the simulation processes. -/
def runScenario (cfg : ConnectionManagerConfig) (script : ClientScript)
    (grace fuel : Nat) : Sim :=
  let s := connect cfg script initSim
  if s.monitorOn then monitorLoop cfg script grace fuel 1 s else s

/-- Number of client `connect` invocations whose virtual timestamp is at
most `t`. -/
def callsBy (s : Sim) (t : Nat) : Nat :=
  (s.connectCallTimes.filter (fun x => decide (x ≤ t))).length

/-- The `maxReconnectCycles` field of the account configuration schema
(`src/src/config-schema.ts`): `z.number().int().min(1).optional()
.default(10)`.  An absent value parses to the default `10`; a present
integer below `1` is rejected.  (The zod `int()` refinement is implicit in
the `Int` input type.) -/
def parseMaxReconnectCycles : Option Int → Except String Int
  | none => Except.ok 10
  | some n =>
    if 1 ≤ n then Except.ok n
    else Except.error "Number must be greater than or equal to 1"

/-- The raw per-account connection settings `gateway.startAccount` reads
from `account.config` (`src/src/send-service.ts`). -/
structure RawConnectionSettings where
  maxConnectionAttempts : Option Nat
  initialReconnectDelay : Option Nat
  maxReconnectDelay : Option Nat
  reconnectJitter : Option ℚ
  maxReconnectCycles : Option Nat

/-- The `connectionConfig` object built inside `gateway.startAccount`
(`src/src/send-service.ts`): every field gets a `??` fallback except
`maxReconnectCycles`, which is passed through unchanged. -/
def buildConnectionConfig (c : RawConnectionSettings) : ConnectionManagerConfig :=
  { maxAttempts := c.maxConnectionAttempts.getD 10
    initialDelay := c.initialReconnectDelay.getD 1000
    maxDelay := c.maxReconnectDelay.getD 60000
    jitter := c.reconnectJitter.getD (3 / 10)
    maxReconnectCycles := c.maxReconnectCycles }

/-- The gateway account status record written through `ctx.setStatus`
(`src/src/send-service.ts`). -/
structure AccountStatus where
  running : Bool
  lastStartAt : Option Nat
  lastStopAt : Option Nat
  lastError : Option String
deriving DecidableEq, Repr

/-- Result of running `gateway.startAccount` up to and including the
abort-signal guard: the account status it leaves behind, whether it threw
(`Except.error`) or proceeded (`Except.ok`), and whether the connection
manager's `connect()` was (about to be) invoked. -/
structure StartOutcome where
  status : AccountStatus
  result : Except String Unit
  connectInvoked : Bool
deriving DecidableEq, Repr

/-- `gateway.startAccount` from the credential check through the
abort-signal guard (`src/src/send-service.ts`): missing credentials throw;
an abort signal that is already aborted records
`lastError = "Connection aborted before start"` with `running = false` and
`lastStopAt` set, then throws the same message — all before
`connectionManager.connect()` is ever invoked.  Otherwise control proceeds
to `await connectionManager.connect()`. -/
def startAccountAbortGuard (hasCreds : Bool) (abortAborted : Option Bool) (ts : Nat)
    (st0 : AccountStatus) : StartOutcome :=
  if !hasCreds then
    ⟨st0, Except.error "DingTalk clientId and clientSecret are required", false⟩
  else
    match abortAborted with
    | some true =>
      ⟨{ st0 with
            running := false
            lastStopAt := some ts
            lastError := some "Connection aborted before start" },
        Except.error "Connection aborted before start", false⟩
    | _ => ⟨st0, Except.ok (), true⟩

/-- A client whose connect always resolves and that always reports itself
connected. -/
def okClient : ClientScript := ⟨fun _ => true, fun _ => true, false⟩

/-- A client whose connect always rejects (the `retries and eventually
fails` scenario of the vitest suite). -/
def failClient : ClientScript := ⟨fun _ => false, fun _ => true, false⟩

/-- A client whose first connect resolves and every later one rejects,
and that reports itself disconnected afterwards (the `max reconnect
cycles` scenario of the vitest suite). -/
def firstOkClient : ClientScript := ⟨fun k => decide (k = 1), fun _ => false, false⟩

/-- A client whose connect always resolves but that reports itself
disconnected (the runtime-disconnection scenarios of the vitest
suite). -/
def dropClient : ClientScript := ⟨fun _ => true, fun _ => false, false⟩

/-- The configuration most vitest scenarios use: 2 attempts, 100 ms
initial delay, 1000 ms cap, no jitter, no runtime cycle bound. -/
def testCfg : ConnectionManagerConfig := ⟨2, 100, 1000, 0, none⟩

/-- The `max reconnect cycles` vitest configuration, with the cycle bound
`k`: 1 initial attempt, 100 ms initial delay, 1000 ms cap, no jitter. -/
def cycleCfg (k : Nat) : ConnectionManagerConfig := ⟨1, 100, 1000, 0, some k⟩

/-- Raw account connection settings with every field absent. -/
def rawNone : RawConnectionSettings := ⟨none, none, none, none, none⟩

/-- The state of a manager right after a first-attempt connect succeeded
at virtual time 0. -/
def connectedSim : Sim :=
  ⟨0, ConnectionState.CONNECTED, false, 0, true, 0, 0, [0], 1,
    [(ConnectionState.CONNECTING, none), (ConnectionState.CONNECTED, none)],
    0, 0, some (Except.ok ())⟩

/-- Modelled from the spec: §4.2 step 5 / §4.5 — the interleaving of the
vitest scenario `cancels in-flight connect when stopped during connect`:
`connect()` enters its first attempt (pre-attempt cleanup plus the client
connect call), `stop()` runs while that call is outstanding, then the
client call settles with result `ok` and the attempt is settled exactly as
the attempt loop would settle it. -/
def stopDuringConnect (cfg : ConnectionManagerConfig) (script : ClientScript)
    (ok : Bool) : Sim :=
  let s0 :=
    { initSim with
        state := ConnectionState.CONNECTING
        changes := [(ConnectionState.CONNECTING, none)] }
  let s1 := connectBegin script s0
  let s2 := stop script s1
  connectSettle cfg 1 ok (connectSteps cfg script (cfg.maxAttempts - 1) 2) s2

/-! Helper lemmas, shared across the claim theorems below. -/

theorem connectBegin_eq (script : ClientScript) (s : Sim) :
    connectBegin script s =
      { s with
          disconnectCalls := s.disconnectCalls + 1
          connectCallTimes := s.connectCallTimes ++ [s.now] } := by
  cases h : script.disconnectThrows <;>
    simp [connectBegin, clientDisconnect, h]

theorem stop_eq (script : ClientScript) (s : Sim) (h : s.stopped = false) :
    stop script s =
      { s with
          stopped := true
          monitorOn := false
          disconnectCalls := s.disconnectCalls + 1
          state := ConnectionState.DISCONNECTED
          changes := s.changes ++ [(ConnectionState.DISCONNECTED, none)]
          waitersResolved := s.waitersResolved + s.waitersPending
          waitersPending := 0 } := by
  cases hd : script.disconnectThrows <;>
    simp [stop, clientDisconnect, h, hd]

theorem stop_of_stopped (script : ClientScript) (s : Sim) (h : s.stopped = true) :
    stop script s = s := by
  simp [stop, h]

theorem monitorLoop_off (cfg : ConnectionManagerConfig) (script : ClientScript)
    (grace fuel tickIdx : Nat) (s : Sim) (h : s.monitorOn = false) :
    monitorLoop cfg script grace fuel tickIdx s = s := by
  cases fuel <;> simp [monitorLoop, h]

theorem failedMsg_ne_cancelledMsg (k : Nat) : failedMsg k ≠ cancelledMsg := by
  intro h
  have h2 := congrArg String.data h
  simp [failedMsg, cancelledMsg] at h2
  have h3 := congrArg List.head? h2
  simp at h3
  exact absurd h3 (by decide)

/-! Claim theorems. -/

/-- C4: for every 1-indexed attempt number `n`, configuration and jitter
sample, the backoff calculator returns a delay `≥ 0`; when `jitter = 0`
the delay is deterministic and exactly equals
`min(maxDelay, initialDelay * 2^(n-1))`. -/
theorem backoff_nonneg_and_deterministic (cfg : ConnectionManagerConfig) (n : Nat)
    (rand : ℚ) :
    0 ≤ calculateBackoff cfg n rand ∧
      (cfg.jitter = 0 →
        calculateBackoff cfg n rand
          = ((min cfg.maxDelay (cfg.initialDelay * 2 ^ (n - 1)) : Nat) : ℚ)) := by
  constructor
  · exact le_max_left 0 _
  · intro h
    simp [calculateBackoff, baseDelay, h]

/-- Witness for C4 at a concrete configuration, attempt number and jitter
sample. -/
theorem backoff_nonneg_and_deterministic_witness :
    calculateBackoff ⟨3, 100, 1000, 0, none⟩ 3 (1 / 2)
      = ((min 1000 (100 * 2 ^ (3 - 1)) : Nat) : ℚ) :=
  (backoff_nonneg_and_deterministic ⟨3, 100, 1000, 0, none⟩ 3 (1 / 2)).2 rfl

/-- C8: calling `connect()` on a stopped manager rejects with the
"manager is stopped" error, leaves every other component of the state
unchanged (no side effects) and never reaches the client's connect. -/
theorem connect_after_stop_rejects (cfg : ConnectionManagerConfig)
    (script : ClientScript) (s : Sim) (h : s.stopped = true) :
    connect cfg script s = { s with connectResult := some (Except.error stoppedMsg) } ∧
      (connect cfg script s).connectCallTimes = s.connectCallTimes := by
  constructor <;> simp [connect, h]

/-- Witness for C8: a freshly stopped manager rejects a subsequent
`connect()` without invoking the client. -/
theorem connect_after_stop_rejects_witness :
    (stop okClient initSim).stopped = true ∧
      connect testCfg okClient (stop okClient initSim)
        = { stop okClient initSim with
              connectResult := some (Except.error stoppedMsg) } :=
  ⟨rfl, (connect_after_stop_rejects testCfg okClient (stop okClient initSim) rfl).1⟩

/-- C10: `gateway.startAccount` invoked with an already-aborted abort
signal throws "Connection aborted before start" before the connection
manager's connect is ever invoked, and records that message as
`lastError` with `running = false` (and `lastStopAt` set). -/
theorem startAccount_abort_guard (ts : Nat) (st0 : AccountStatus) :
    startAccountAbortGuard true (some true) ts st0
      = ⟨{ st0 with
              running := false
              lastStopAt := some ts
              lastError := some "Connection aborted before start" },
          Except.error "Connection aborted before start", false⟩ ∧
      (startAccountAbortGuard true (some true) ts st0).connectInvoked = false := by
  constructor <;> rfl

/-- C6: `stop()` is idempotent — a second call is a no-op leaving the very
same observable state; its result does not depend on whether the client's
`disconnect` throws (the error is swallowed, `stop` itself never throws);
and a first call disconnects the client exactly once, transitions to
`DISCONNECTED` and leaves `isStopped() = true`. -/
theorem stop_idempotent_safe (script : ClientScript) (s : Sim) :
    stop script (stop script s) = stop script s ∧
    stop ⟨script.connectOk, script.connectedAt, true⟩ s
        = stop ⟨script.connectOk, script.connectedAt, false⟩ s ∧
    (s.stopped = false →
      isStopped (stop script s) = true ∧
      getState (stop script s) = ConnectionState.DISCONNECTED ∧
      (stop script s).disconnectCalls = s.disconnectCalls + 1) := by
  cases h : s.stopped
  · refine ⟨?_, ?_, ?_⟩
    · rw [stop_eq script s h]
      exact stop_of_stopped script _ rfl
    · rw [stop_eq _ s h, stop_eq _ s h]
    · intro _
      rw [stop_eq script s h]
      simp [isStopped, getState]
  · refine ⟨?_, ?_, ?_⟩
    · rw [stop_of_stopped script s h, stop_of_stopped script s h]
    · rw [stop_of_stopped _ s h, stop_of_stopped _ s h]
    · intro hf
      simp at hf

/-- Witness for C6: stopping a fresh manager disconnects the client
exactly once. -/
theorem stop_idempotent_safe_witness :
    initSim.stopped = false ∧
      (stop okClient initSim).disconnectCalls = initSim.disconnectCalls + 1 :=
  ⟨rfl, ((stop_idempotent_safe okClient initSim).2.2 rfl).2.2⟩

theorem registerWaiters_eq (n : Nat) :
    ∀ s : Sim, s.stopped = false →
      registerWaiters n s = { s with waitersPending := s.waitersPending + n } := by
  induction n with
  | zero => intro s _; simp [registerWaiters]
  | succ n ih =>
    intro s h
    show registerWaiters n (waitForStop s).1 = _
    rw [waitForStop, if_neg (by simp [h])]
    rw [ih { s with waitersPending := s.waitersPending + 1 } h]
    simp [Sim.mk.injEq]
    omega

/-- C7: `waitForStop()` resolves immediately when the manager is already
stopped; otherwise every waiter registered before `stop()` is resolved by
it exactly once — `stop` moves all pending waiters to resolved, a repeated
`stop` resolves nothing more, and a `waitForStop()` issued afterwards
resolves immediately. -/
theorem waitForStop_resolution (script : ClientScript) (s : Sim) (n : Nat) :
    (s.stopped = true → waitForStop s = (s, true)) ∧
    (s.stopped = false →
      (stop script (registerWaiters n s)).waitersResolved
          = s.waitersResolved + s.waitersPending + n ∧
      (stop script (registerWaiters n s)).waitersPending = 0 ∧
      stop script (stop script (registerWaiters n s))
          = stop script (registerWaiters n s) ∧
      (waitForStop (stop script (registerWaiters n s))).2 = true) := by
  constructor
  · intro h; simp [waitForStop, h]
  · intro h
    rw [registerWaiters_eq n s h]
    rw [stop_eq script { s with waitersPending := s.waitersPending + n } h]
    refine ⟨by simp [Nat.add_assoc], by simp, ?_, by simp [waitForStop]⟩
    exact stop_of_stopped script _ rfl

/-- Witness for C7: two waiters registered on a fresh manager are both
resolved when `stop` completes. -/
theorem waitForStop_resolution_witness :
    initSim.stopped = false ∧
      (stop okClient (registerWaiters 2 initSim)).waitersResolved
        = initSim.waitersResolved + initSim.waitersPending + 2 :=
  ⟨rfl, ((waitForStop_resolution okClient initSim 2).2 rfl).1⟩

theorem connectSteps_allFail (cfg : ConnectionManagerConfig) (script : ClientScript)
    (hfail : ∀ k, script.connectOk k = false) :
    ∀ fuel attempt s, s.stopped = false → attempt + fuel = cfg.maxAttempts →
      (connectSteps cfg script (fuel + 1) attempt s).connectCallTimes.length
          = s.connectCallTimes.length + (fuel + 1) ∧
      (connectSteps cfg script (fuel + 1) attempt s).state = ConnectionState.FAILED ∧
      (connectSteps cfg script (fuel + 1) attempt s).connectResult
          = some (Except.error (failedMsg cfg.maxAttempts)) ∧
      (connectSteps cfg script (fuel + 1) attempt s).changes
          = s.changes ++ [(ConnectionState.FAILED, none)] := by
  intro fuel
  induction fuel with
  | zero =>
    intro attempt s hs hmax
    have hlt : ¬ attempt < cfg.maxAttempts := by omega
    simp [connectSteps, connectSettle, connectBegin_eq, hs, hfail, hlt]
  | succ fuel ih =>
    intro attempt s hs hmax
    have hlt : attempt < cfg.maxAttempts := by omega
    have hstep : connectSteps cfg script (fuel + 1 + 1) attempt s
        = connectSteps cfg script (fuel + 1) (attempt + 1)
            { s with
                disconnectCalls := s.disconnectCalls + 1
                connectCallTimes := s.connectCallTimes ++ [s.now]
                now := s.now + baseDelay cfg attempt } := by
      simp [connectSteps, connectSettle, connectBegin_eq, hs, hfail, hlt]
    rw [hstep]
    obtain ⟨h1, h2, h3, h4⟩ := ih (attempt + 1)
      { s with
          disconnectCalls := s.disconnectCalls + 1
          connectCallTimes := s.connectCallTimes ++ [s.now]
          now := s.now + baseDelay cfg attempt } hs (by omega)
    refine ⟨?_, h2, h3, ?_⟩
    · rw [h1]
      simp
      omega
    · rw [h4]

/-- C1: with `maxAttempts = N` and a client whose connect rejects on every
invocation, `connect()` invokes the client's connect exactly `N` times,
rejects with the error naming `N` attempts, and leaves the manager
`FAILED`. -/
theorem initial_connect_exhausts_attempts (N : Nat) (cfg : ConnectionManagerConfig)
    (script : ClientScript) (hN : 1 ≤ N) (hcfg : cfg.maxAttempts = N)
    (hfail : ∀ k, script.connectOk k = false) :
    (connect cfg script initSim).connectCallTimes.length = N ∧
    (connect cfg script initSim).connectResult
        = some (Except.error (failedMsg N)) ∧
    getState (connect cfg script initSim) = ConnectionState.FAILED := by
  obtain ⟨m, hm⟩ : ∃ m, N = m + 1 := ⟨N - 1, by omega⟩
  have hc : connect cfg script initSim
      = connectSteps cfg script cfg.maxAttempts 1
          { initSim with
              state := ConnectionState.CONNECTING
              changes := [(ConnectionState.CONNECTING, none)] } := rfl
  rw [hc, hcfg, hm]
  obtain ⟨h1, h2, h3, h4⟩ := connectSteps_allFail cfg script hfail m 1
    { initSim with
        state := ConnectionState.CONNECTING
        changes := [(ConnectionState.CONNECTING, none)] } rfl (by omega)
  refine ⟨?_, ?_, ?_⟩
  · rw [h1]; simp [initSim]
  · rw [h3, hcfg, hm]
  · rw [getState, h2]

/-- Witness for C1 at the vitest configuration (`maxAttempts = 2`). -/
theorem initial_connect_exhausts_attempts_witness :
    1 ≤ 2 ∧ testCfg.maxAttempts = 2 ∧
      (connect testCfg failClient initSim).connectCallTimes.length = 2 :=
  ⟨by decide, rfl,
    (initial_connect_exhausts_attempts 2 testCfg failClient (by decide) rfl
      (fun _ => rfl)).1⟩

/-- C3: when `stop()` runs while a connect attempt is outstanding, the
in-flight `connect()` rejects with the distinct cancellation error — it
neither resolves nor surfaces the attempt-exhaustion failure, however the
client call settles — and the client is disconnected as part of the
cancellation; likewise a `stop()` during a backoff wait makes the attempt
loop reject with the same cancellation error as soon as it regains
control. -/
theorem stop_cancels_inflight_connect (cfg : ConnectionManagerConfig)
    (script : ClientScript) (ok : Bool) :
    (stopDuringConnect cfg script ok).connectResult
        = some (Except.error cancelledMsg) ∧
    (stopDuringConnect cfg script ok).connectResult ≠ some (Except.ok ()) ∧
    (∀ k, (stopDuringConnect cfg script ok).connectResult
        ≠ some (Except.error (failedMsg k))) ∧
    (stopDuringConnect cfg script ok).disconnectCalls = 2 ∧
    (∀ fuel attempt s, s.stopped = true →
      connectSteps cfg script (fuel + 1) attempt s
        = { s with connectResult := some (Except.error cancelledMsg) }) := by
  have hval : stopDuringConnect cfg script ok
      = { now := 0, state := ConnectionState.DISCONNECTED, stopped := true,
          lastConnectedAt := 0, monitorOn := false, monitorStart := 0,
          cyclesUsed := 0, connectCallTimes := [0], disconnectCalls := 2,
          changes := [(ConnectionState.CONNECTING, none),
            (ConnectionState.DISCONNECTED, none)],
          waitersPending := 0, waitersResolved := 0,
          connectResult := some (Except.error cancelledMsg) } := by
    cases hd : script.disconnectThrows <;>
      simp [stopDuringConnect, connectBegin, clientDisconnect, stop,
        connectSettle, hd, initSim]
  refine ⟨by rw [hval], by rw [hval]; simp, ?_, by rw [hval], ?_⟩
  · intro k
    rw [hval]
    simp
    exact Ne.symm (failedMsg_ne_cancelledMsg k)
  · intro fuel attempt s hs
    simp [connectSteps, hs]

/-- Witness for C3: the vitest interleaving with a client whose pending
connect resolves after `stop()`, and the attempt loop entered on an
already-stopped manager. -/
theorem stop_cancels_inflight_connect_witness :
    (stopDuringConnect testCfg okClient true).connectResult
        = some (Except.error cancelledMsg) ∧
    (stop okClient initSim).stopped = true ∧
    connectSteps testCfg okClient 1 1 (stop okClient initSim)
        = { stop okClient initSim with
              connectResult := some (Except.error cancelledMsg) } :=
  ⟨(stop_cancels_inflight_connect testCfg okClient true).1, rfl,
    (stop_cancels_inflight_connect testCfg okClient true).2.2.2.2 0 1 _ rfl⟩

theorem runtimeLoop_allFail (cfg : ConnectionManagerConfig) (script : ClientScript)
    (grace K : Nat) (hb : cfg.maxReconnectCycles = some K)
    (hfail : ∀ k, 2 ≤ k → script.connectOk k = false) :
    ∀ r fuel s, s.cyclesUsed + r = K → r + 1 ≤ fuel →
      1 ≤ s.connectCallTimes.length →
      (runtimeLoop cfg script grace fuel s).connectCallTimes.length
          = s.connectCallTimes.length + r ∧
      (runtimeLoop cfg script grace fuel s).state = ConnectionState.FAILED ∧
      (runtimeLoop cfg script grace fuel s).monitorOn = false ∧
      (runtimeLoop cfg script grace fuel s).changes
          = s.changes ++ [(ConnectionState.FAILED, some (cyclesMsg K))] := by
  intro r
  induction r with
  | zero =>
    intro fuel s hcy hfuel hlen
    obtain ⟨f, rfl⟩ : ∃ f, fuel = f + 1 := ⟨fuel - 1, by omega⟩
    have hex : budgetExhausted cfg s = true := by
      simp [budgetExhausted, hb]; omega
    rw [show runtimeLoop cfg script grace (f + 1) s = cycleExhaust cfg s from by
      simp [runtimeLoop, hex]]
    simp [cycleExhaust, hb]
  | succ r ih =>
    intro fuel s hcy hfuel hlen
    obtain ⟨f, rfl⟩ : ∃ f, fuel = f + 1 := ⟨fuel - 1, by omega⟩
    have hex : budgetExhausted cfg s = false := by
      simp [budgetExhausted, hb]; omega
    have hok : script.connectOk (s.connectCallTimes.length + 1) = false :=
      hfail _ (by omega)
    have hstep : runtimeLoop cfg script grace (f + 1) s
        = runtimeLoop cfg script grace f
            { s with
                cyclesUsed := s.cyclesUsed + 1
                now := s.now + baseDelay cfg (s.cyclesUsed + 1)
                disconnectCalls := s.disconnectCalls + 1
                connectCallTimes := s.connectCallTimes
                  ++ [s.now + baseDelay cfg (s.cyclesUsed + 1)] } := by
      simp [runtimeLoop, hex, runtimeCycle, connectBegin_eq, hok]
    rw [hstep]
    obtain ⟨h1, h2, h3, h4⟩ := ih f
      { s with
          cyclesUsed := s.cyclesUsed + 1
          now := s.now + baseDelay cfg (s.cyclesUsed + 1)
          disconnectCalls := s.disconnectCalls + 1
          connectCallTimes := s.connectCallTimes
            ++ [s.now + baseDelay cfg (s.cyclesUsed + 1)] }
      (by simp; omega) (by omega) (by simp)
    refine ⟨?_, h2, h3, ?_⟩
    · rw [h1]; simp; omega
    · rw [h4]

/-- C2: with `maxReconnectCycles = K`, after a first-attempt connect
success followed by a drop detected by the periodic check, a client that
fails every runtime reconnect attempt is asked to connect exactly `K`
additional times; the manager then is `FAILED`, `onStateChange` has been
invoked with `FAILED` and the message naming `K`, the monitor is off, and
any amount of further monitoring (more elapsed time, later drops) leaves
the state untouched so no further connect calls occur. -/
theorem runtime_cycles_exhaustion (d0 dM : Nat) (j : ℚ) (K grace fuel : Nat)
    (script : ClientScript) (hK : 1 ≤ K) (hg : grace < 5000) (hfuel : K + 2 ≤ fuel)
    (hok1 : script.connectOk 1 = true)
    (hfail : ∀ k, 2 ≤ k → script.connectOk k = false)
    (hconn : ∀ t, script.connectedAt t = false) :
    (runScenario ⟨1, d0, dM, j, some K⟩ script grace fuel).connectCallTimes.length
        = 1 + K ∧
    getState (runScenario ⟨1, d0, dM, j, some K⟩ script grace fuel)
        = ConnectionState.FAILED ∧
    (runScenario ⟨1, d0, dM, j, some K⟩ script grace fuel).monitorOn = false ∧
    (ConnectionState.FAILED, some (cyclesMsg K))
        ∈ (runScenario ⟨1, d0, dM, j, some K⟩ script grace fuel).changes ∧
    (∀ f i, monitorLoop ⟨1, d0, dM, j, some K⟩ script grace f i
          (runScenario ⟨1, d0, dM, j, some K⟩ script grace fuel)
        = runScenario ⟨1, d0, dM, j, some K⟩ script grace fuel) := by
  obtain ⟨f, rfl⟩ : ∃ f, fuel = f + 1 := ⟨fuel - 1, by omega⟩
  have hc : connect ⟨1, d0, dM, j, some K⟩ script initSim = connectedSim := by
    simp [connect, initSim, connectSteps, connectBegin_eq, connectSettle, hok1,
      connectedSim]
  have hcond : (script.connectedAt
        (connectedSim.monitorStart + 1 * healthCheckIntervalMs)
      || decide ((connectedSim.monitorStart + 1 * healthCheckIntervalMs)
          - connectedSim.lastConnectedAt ≤ grace)) = false := by
    simp [hconn, connectedSim, healthCheckIntervalMs]
    omega
  have hrs : runScenario ⟨1, d0, dM, j, some K⟩ script grace (f + 1)
      = runtimeLoop ⟨1, d0, dM, j, some K⟩ script grace f
          { connectedSim with now := 5000 } := by
    rw [runScenario, hc]
    rw [if_pos (by rfl)]
    rw [monitorLoop]
    rw [if_pos (by rfl)]
    rw [if_neg (by rw [hcond]; simp)]
    norm_num [connectedSim, healthCheckIntervalMs]
  obtain ⟨h1, h2, h3, h4⟩ := runtimeLoop_allFail ⟨1, d0, dM, j, some K⟩ script
    grace K rfl hfail K f { connectedSim with now := 5000 }
    (by simp [connectedSim]) (by omega) (by simp [connectedSim])
  rw [hrs]
  refine ⟨?_, ?_, h3, ?_, ?_⟩
  · rw [h1]; simp [connectedSim]
  · rw [getState, h2]
  · rw [h4]
    exact List.mem_append_right _ (by simp)
  · intro f' i
    exact monitorLoop_off _ script grace f' i _ h3

/-- Witness for C2 at the vitest scenario (`maxReconnectCycles = 2`, grace
window 4000 ms, enough fuel). -/
theorem runtime_cycles_exhaustion_witness :
    1 ≤ 2 ∧ 4000 < 5000 ∧ 2 + 2 ≤ 4 ∧
      (runScenario ⟨1, 100, 1000, 0, some 2⟩ firstOkClient 4000 4).connectCallTimes.length
        = 1 + 2 :=
  ⟨by decide, by decide, by decide,
    (runtime_cycles_exhaustion 100 1000 0 2 4000 4 firstOkClient (by decide)
      (by decide) (by decide) rfl
      (fun k hk => by simp [firstOkClient]; omega)
      (fun _ => rfl)).1⟩

theorem cycleExhaust_calls (cfg : ConnectionManagerConfig) (s : Sim) :
    (cycleExhaust cfg s).connectCallTimes = s.connectCallTimes := by
  cases h : cfg.maxReconnectCycles <;> simp [cycleExhaust, h]

theorem loops_calls_extend (cfg : ConnectionManagerConfig) (script : ClientScript)
    (grace : Nat) :
    ∀ fuel,
      (∀ tickIdx s, s.monitorStart = 0 →
        ∃ rest, (monitorLoop cfg script grace fuel tickIdx s).connectCallTimes
            = s.connectCallTimes ++ rest ∧
          ∀ t ∈ rest, tickIdx * healthCheckIntervalMs ≤ t) ∧
      (∀ s, s.monitorStart = 0 →
        ∃ rest, (runtimeLoop cfg script grace fuel s).connectCallTimes
            = s.connectCallTimes ++ rest ∧
          ∀ t ∈ rest, s.now ≤ t) := by
  intro fuel
  induction fuel with
  | zero =>
    constructor
    · intro tickIdx s _
      exact ⟨[], by simp [monitorLoop], by simp⟩
    · intro s _
      exact ⟨[], by simp [runtimeLoop], by simp⟩
  | succ fuel ih =>
    obtain ⟨ihM, ihR⟩ := ih
    constructor
    · intro tickIdx s hms
      cases hon : s.monitorOn
      · exact ⟨[], by simp [monitorLoop, hon], by simp⟩
      · cases hcond : (script.connectedAt (s.monitorStart + tickIdx * healthCheckIntervalMs)
            || decide ((s.monitorStart + tickIdx * healthCheckIntervalMs)
                - s.lastConnectedAt ≤ grace))
        · have hred : monitorLoop cfg script grace (fuel + 1) tickIdx s
              = runtimeLoop cfg script grace fuel
                  { s with now := s.monitorStart + tickIdx * healthCheckIntervalMs } := by
            rw [monitorLoop, if_pos (by rw [hon]), if_neg (by rw [hcond]; simp)]
          obtain ⟨rest, h1, h2⟩ := ihR
            { s with now := s.monitorStart + tickIdx * healthCheckIntervalMs }
            (by simpa using hms)
          refine ⟨rest, by rw [hred]; exact h1, ?_⟩
          intro t ht
          have h3 := h2 t ht
          simp [hms] at h3
          omega
        · have hred : monitorLoop cfg script grace (fuel + 1) tickIdx s
              = monitorLoop cfg script grace fuel (tickIdx + 1)
                  { s with now := s.monitorStart + tickIdx * healthCheckIntervalMs } := by
            rw [monitorLoop, if_pos (by rw [hon]), if_pos (by rw [hcond])]
          obtain ⟨rest, h1, h2⟩ := ihM (tickIdx + 1)
            { s with now := s.monitorStart + tickIdx * healthCheckIntervalMs }
            (by simpa using hms)
          refine ⟨rest, by rw [hred]; exact h1, ?_⟩
          intro t ht
          have h3 := h2 t ht
          have h4 : tickIdx * healthCheckIntervalMs
              ≤ (tickIdx + 1) * healthCheckIntervalMs :=
            Nat.mul_le_mul_right _ (by omega)
          omega
    · intro s hms
      cases hex : budgetExhausted cfg s
      case false =>
        cases hok : script.connectOk (s.connectCallTimes.length + 1)
        · have hred : runtimeLoop cfg script grace (fuel + 1) s
              = runtimeLoop cfg script grace fuel
                  { s with
                      cyclesUsed := s.cyclesUsed + 1
                      now := s.now + baseDelay cfg (s.cyclesUsed + 1)
                      disconnectCalls := s.disconnectCalls + 1
                      connectCallTimes := s.connectCallTimes
                        ++ [s.now + baseDelay cfg (s.cyclesUsed + 1)] } := by
            simp [runtimeLoop, hex, runtimeCycle, connectBegin_eq, hok]
          obtain ⟨rest, h1, h2⟩ := ihR
            { s with
                cyclesUsed := s.cyclesUsed + 1
                now := s.now + baseDelay cfg (s.cyclesUsed + 1)
                disconnectCalls := s.disconnectCalls + 1
                connectCallTimes := s.connectCallTimes
                  ++ [s.now + baseDelay cfg (s.cyclesUsed + 1)] }
            (by simpa using hms)
          refine ⟨[s.now + baseDelay cfg (s.cyclesUsed + 1)] ++ rest, ?_, ?_⟩
          · rw [hred, h1]; simp
          · intro t ht
            simp at ht
            rcases ht with h | h
            · omega
            · have h3 := h2 t h
              simp at h3
              omega
        · have hred : runtimeLoop cfg script grace (fuel + 1) s
              = monitorLoop cfg script grace fuel
                  ((s.now + baseDelay cfg (s.cyclesUsed + 1))
                      / healthCheckIntervalMs + 1)
                  { s with
                      cyclesUsed := s.cyclesUsed + 1
                      now := s.now + baseDelay cfg (s.cyclesUsed + 1)
                      disconnectCalls := s.disconnectCalls + 1
                      connectCallTimes := s.connectCallTimes
                        ++ [s.now + baseDelay cfg (s.cyclesUsed + 1)]
                      lastConnectedAt := s.now + baseDelay cfg (s.cyclesUsed + 1) } := by
            simp [runtimeLoop, hex, runtimeCycle, connectBegin_eq, hok, hms]
          obtain ⟨rest, h1, h2⟩ := ihM
            ((s.now + baseDelay cfg (s.cyclesUsed + 1)) / healthCheckIntervalMs + 1)
            { s with
                cyclesUsed := s.cyclesUsed + 1
                now := s.now + baseDelay cfg (s.cyclesUsed + 1)
                disconnectCalls := s.disconnectCalls + 1
                connectCallTimes := s.connectCallTimes
                  ++ [s.now + baseDelay cfg (s.cyclesUsed + 1)]
                lastConnectedAt := s.now + baseDelay cfg (s.cyclesUsed + 1) }
            (by simpa using hms)
          refine ⟨[s.now + baseDelay cfg (s.cyclesUsed + 1)] ++ rest, ?_, ?_⟩
          · rw [hred, h1]; simp
          · intro t ht
            simp at ht
            rcases ht with h | h
            · omega
            · have h3 := h2 t h
              simp [healthCheckIntervalMs] at h3
              omega
      case true =>
        refine ⟨[], ?_, by simp⟩
        rw [runtimeLoop, if_pos (by rw [hex])]
        rw [cycleExhaust_calls]
        simp

/-- C5: after a successful connect with the client then reporting
`connected = false`, no reconnect attempt happens before the grace window
elapses — at +2500 ms (with the 5000 ms check interval) the client's
connect has been called exactly once in total — while by +10120 ms at
least two connect calls have happened. -/
theorem grace_window_reconnect_timing (grace fuel : Nat) (hg1 : 2500 < grace)
    (hg2 : grace < 5000) (hfuel : 2 ≤ fuel) :
    callsBy (runScenario testCfg dropClient grace fuel) 2500 = 1 ∧
    2 ≤ callsBy (runScenario testCfg dropClient grace fuel) 10120 := by
  obtain ⟨f, rfl⟩ : ∃ f, fuel = f + 2 := ⟨fuel - 2, by omega⟩
  have hc : connect testCfg dropClient initSim = connectedSim := rfl
  have h1 : runScenario testCfg dropClient grace (f + 2)
      = monitorLoop testCfg dropClient grace (f + 2) 1 connectedSim := by
    rw [runScenario, hc, if_pos (by rfl)]
  have hcond : (dropClient.connectedAt
        (connectedSim.monitorStart + 1 * healthCheckIntervalMs)
      || decide ((connectedSim.monitorStart + 1 * healthCheckIntervalMs)
          - connectedSim.lastConnectedAt ≤ grace)) = false := by
    simp [dropClient, connectedSim, healthCheckIntervalMs]
    omega
  have h2 : monitorLoop testCfg dropClient grace (f + 2) 1 connectedSim
      = runtimeLoop testCfg dropClient grace (f + 1)
          { connectedSim with now := 5000 } := by
    rw [monitorLoop, if_pos (by rfl), if_neg (by rw [hcond]; simp)]
    norm_num [connectedSim, healthCheckIntervalMs]
  have h3 : runtimeLoop testCfg dropClient grace (f + 1)
        { connectedSim with now := 5000 }
      = monitorLoop testCfg dropClient grace f 2
          ⟨5100, ConnectionState.CONNECTED, false, 5100, true, 0, 1, [0, 5100], 2,
            [(ConnectionState.CONNECTING, none), (ConnectionState.CONNECTED, none)],
            0, 0, some (Except.ok ())⟩ := by
    rw [runtimeLoop, if_neg (by simp [budgetExhausted, testCfg])]
    norm_num [runtimeCycle, connectBegin_eq, connectedSim, testCfg, baseDelay,
      healthCheckIntervalMs, dropClient]
  obtain ⟨rest, hA, hB⟩ := (loops_calls_extend testCfg dropClient grace f).1 2
    ⟨5100, ConnectionState.CONNECTED, false, 5100, true, 0, 1, [0, 5100], 2,
      [(ConnectionState.CONNECTING, none), (ConnectionState.CONNECTED, none)],
      0, 0, some (Except.ok ())⟩ rfl
  rw [h1, h2, h3]
  constructor
  · have hnil : rest.filter (fun x => decide (x ≤ 2500)) = [] :=
      List.filter_eq_nil_iff.2 (fun t ht => by
        have h5 := hB t ht
        simp [healthCheckIntervalMs] at h5
        simp
        omega)
    rw [callsBy, hA, List.filter_append, hnil]
    rfl
  · rw [callsBy, hA, List.filter_append]
    simp

/-- Witness for C5 at the vitest grace window (4000 ms) and minimal
fuel. -/
theorem grace_window_reconnect_timing_witness :
    2500 < 4000 ∧ 4000 < 5000 ∧ 2 ≤ 2 ∧
      callsBy (runScenario testCfg dropClient 4000 2) 2500 = 1 :=
  ⟨by decide, by decide, by decide,
    (grace_window_reconnect_timing 4000 2 (by decide) (by decide) (by decide)).1⟩

theorem loops_preserve_none (cfg : ConnectionManagerConfig) (script : ClientScript)
    (grace : Nat) (hb : cfg.maxReconnectCycles = none) :
    ∀ fuel,
      (∀ tickIdx s,
        (monitorLoop cfg script grace fuel tickIdx s).state = s.state ∧
        (monitorLoop cfg script grace fuel tickIdx s).changes = s.changes) ∧
      (∀ s,
        (runtimeLoop cfg script grace fuel s).state = s.state ∧
        (runtimeLoop cfg script grace fuel s).changes = s.changes) := by
  intro fuel
  induction fuel with
  | zero =>
    constructor
    · intro tickIdx s
      exact ⟨by simp [monitorLoop], by simp [monitorLoop]⟩
    · intro s
      exact ⟨by simp [runtimeLoop], by simp [runtimeLoop]⟩
  | succ fuel ih =>
    obtain ⟨ihM, ihR⟩ := ih
    constructor
    · intro tickIdx s
      cases hon : s.monitorOn
      · simp [monitorLoop, hon]
      · cases hcond : (script.connectedAt (s.monitorStart + tickIdx * healthCheckIntervalMs)
            || decide ((s.monitorStart + tickIdx * healthCheckIntervalMs)
                - s.lastConnectedAt ≤ grace))
        · have hred : monitorLoop cfg script grace (fuel + 1) tickIdx s
              = runtimeLoop cfg script grace fuel
                  { s with now := s.monitorStart + tickIdx * healthCheckIntervalMs } := by
            rw [monitorLoop, if_pos (by rw [hon]), if_neg (by rw [hcond]; simp)]
          rw [hred]
          exact ihR _
        · have hred : monitorLoop cfg script grace (fuel + 1) tickIdx s
              = monitorLoop cfg script grace fuel (tickIdx + 1)
                  { s with now := s.monitorStart + tickIdx * healthCheckIntervalMs } := by
            rw [monitorLoop, if_pos (by rw [hon]), if_pos (by rw [hcond])]
          rw [hred]
          exact ihM _ _
    · intro s
      have hex : budgetExhausted cfg s = false := by simp [budgetExhausted, hb]
      cases hok : script.connectOk (s.connectCallTimes.length + 1)
      · have hred : runtimeLoop cfg script grace (fuel + 1) s
            = runtimeLoop cfg script grace fuel
                { s with
                    cyclesUsed := s.cyclesUsed + 1
                    now := s.now + baseDelay cfg (s.cyclesUsed + 1)
                    disconnectCalls := s.disconnectCalls + 1
                    connectCallTimes := s.connectCallTimes
                      ++ [s.now + baseDelay cfg (s.cyclesUsed + 1)] } := by
          simp [runtimeLoop, hex, runtimeCycle, connectBegin_eq, hok]
        rw [hred]
        exact ihR _
      · have hred : runtimeLoop cfg script grace (fuel + 1) s
            = monitorLoop cfg script grace fuel
                (((s.now + baseDelay cfg (s.cyclesUsed + 1)) - s.monitorStart)
                    / healthCheckIntervalMs + 1)
                { s with
                    cyclesUsed := s.cyclesUsed + 1
                    now := s.now + baseDelay cfg (s.cyclesUsed + 1)
                    disconnectCalls := s.disconnectCalls + 1
                    connectCallTimes := s.connectCallTimes
                      ++ [s.now + baseDelay cfg (s.cyclesUsed + 1)]
                    lastConnectedAt := s.now + baseDelay cfg (s.cyclesUsed + 1) } := by
          simp [runtimeLoop, hex, runtimeCycle, connectBegin_eq, hok]
        rw [hred]
        exact ihM _ _

/-- C9 counterexample: `maxReconnectCycles` absent from the account
configuration does not make the budget unbounded — the schema
(`src/src/config-schema.ts`) parses the absent field to its default 10,
and a manager driven with that schema-derived budget of 10 does terminate
in `FAILED` through cycle exhaustion, citing 10. -/
theorem maxReconnectCycles_absent_schema_default :
    parseMaxReconnectCycles none = Except.ok 10 ∧
    getState (runScenario (buildConnectionConfig ⟨none, none, none, none, some 10⟩)
        firstOkClient 4000 12) = ConnectionState.FAILED ∧
    (ConnectionState.FAILED, some (cyclesMsg 10))
        ∈ (runScenario (buildConnectionConfig ⟨none, none, none, none, some 10⟩)
            firstOkClient 4000 12).changes := by
  refine ⟨rfl, ?_, ?_⟩ <;> decide

/-- C9 (amended): `maxReconnectCycles` is optional, but the account config
schema defaults an absent field to 10, so a schema-parsed configuration
yields a bounded budget of 10; the runtime-reconnect budget is unbounded
only when the ConnectionManager's own config field is itself absent (raw
settings passed through without the schema default, as the gateway does
with `config.maxReconnectCycles`): supervision then never changes the
lifecycle state or emits a state change — in particular it never reaches
`FAILED` via cycle exhaustion. -/
theorem maxReconnectCycles_budget_semantics (c : RawConnectionSettings)
    (script : ClientScript) (grace : Nat) (hc : c.maxReconnectCycles = none) :
    parseMaxReconnectCycles none = Except.ok 10 ∧
    (∀ fuel tickIdx s,
      getState (monitorLoop (buildConnectionConfig c) script grace fuel tickIdx s)
          = getState s ∧
      (monitorLoop (buildConnectionConfig c) script grace fuel tickIdx s).changes
          = s.changes) ∧
    (∀ fuel s,
      getState (runtimeLoop (buildConnectionConfig c) script grace fuel s)
          = getState s ∧
      (runtimeLoop (buildConnectionConfig c) script grace fuel s).changes
          = s.changes) := by
  have hb : (buildConnectionConfig c).maxReconnectCycles = none := by
    simp [buildConnectionConfig, hc]
  refine ⟨rfl, ?_, ?_⟩
  · intro fuel tickIdx s
    exact (loops_preserve_none _ script grace hb fuel).1 tickIdx s
  · intro fuel s
    exact (loops_preserve_none _ script grace hb fuel).2 s

/-- Witness for the amended C9: raw settings with the field absent leave
the state of a connected manager untouched under monitoring. -/
theorem maxReconnectCycles_budget_semantics_witness :
    rawNone.maxReconnectCycles = none ∧
      getState (monitorLoop (buildConnectionConfig rawNone) firstOkClient 4000 5 1
          connectedSim) = getState connectedSim :=
  ⟨rfl,
    ((maxReconnectCycles_budget_semantics rawNone firstOkClient 4000 rfl).2.1
      5 1 connectedSim).1⟩

end DingTalk
